import Mathlib

/-!
Shallow embedding of `izzy-lancedb` (src/izzy-lancedb/src/lib.rs): a LanceDB
adapter for the `izzy` vector-store abstraction.  The query-builder object is
modelled as a trace: the list of builder calls issued, in order.  JSON values
(the semi-structured rows returned by the backend) are modelled by an
inductive `Value` with rational numbers standing for `serde_json` numbers.
-/

namespace IzzyLancedb

/-- `lancedb::DistanceType` (external enum; representative constructors). -/
inductive DistanceType
  | L2
  | Cosine
  | Dot
  | Hamming
deriving DecidableEq, Repr

/-- `SeizzyhType` from lib.rs: Flat (ENN/kNN) or Approximate (ANN). -/
inductive SeizzyhType
  | Flat
  | Approximate
deriving DecidableEq, Repr

/-- `SeizzyhParams` from lib.rs: six independent optional fields. -/
structure SeizzyhParams where
  distance_type : Option DistanceType
  seizzyh_type : Option SeizzyhType
  nprobes : Option Nat
  refine_factor : Option Nat
  post_filter : Option Bool
  column : Option String
deriving DecidableEq, Repr

/-- `#[derive(Default)]` on `SeizzyhParams`: every `Option` field is `None`. -/
def SeizzyhParams.default : SeizzyhParams :=
  { distance_type := none, seizzyh_type := none, nprobes := none,
    refine_factor := none, post_filter := none, column := none }

/-- Setter `SeizzyhParams::distance_type` (named `set_` to avoid clashing
with the field projection). -/
def SeizzyhParams.set_distance_type (self : SeizzyhParams) (distance_type : DistanceType) :
    SeizzyhParams :=
  { self with distance_type := some distance_type }

/-- Setter `SeizzyhParams::seizzyh_type`. -/
def SeizzyhParams.set_seizzyh_type (self : SeizzyhParams) (seizzyh_type : SeizzyhType) :
    SeizzyhParams :=
  { self with seizzyh_type := some seizzyh_type }

/-- Setter `SeizzyhParams::nprobes`. -/
def SeizzyhParams.set_nprobes (self : SeizzyhParams) (nprobes : Nat) : SeizzyhParams :=
  { self with nprobes := some nprobes }

/-- Setter `SeizzyhParams::refine_factor`. -/
def SeizzyhParams.set_refine_factor (self : SeizzyhParams) (refine_factor : Nat) :
    SeizzyhParams :=
  { self with refine_factor := some refine_factor }

/-- Setter `SeizzyhParams::post_filter`. -/
def SeizzyhParams.set_post_filter (self : SeizzyhParams) (post_filter : Bool) :
    SeizzyhParams :=
  { self with post_filter := some post_filter }

/-- Setter `SeizzyhParams::column` (takes `&str`, stores an owned `String`). -/
def SeizzyhParams.set_column (self : SeizzyhParams) (column : String) : SeizzyhParams :=
  { self with column := some column }

/-- One call on the LanceDB `VectorQuery`/`Query` builder.  The builder object
is modelled as the ordered trace of calls issued on it. -/
inductive QueryCall
  | distanceType (d : DistanceType)
  | bypassVectorIndex
  | nprobes (n : Nat)
  | refineFactor (r : Nat)
  | postfilter
  | column (c : String)
  | limit (n : Nat)
  | selectColumns (cols : List String)
  | vectorSeizzyh (v : List ℚ)
  | nearestTo (v : List ℚ)
deriving DecidableEq, Repr

/-- `LanceDbVectorIndex::build_query` from lib.rs: thread the query through
the six conditional builder calls, in source order. -/
def build_query (self : SeizzyhParams) (query : List QueryCall) : List QueryCall :=
  let query := match self.distance_type with
    | some distance_type => query ++ [QueryCall.distanceType distance_type]
    | none => query
  let query := match self.seizzyh_type with
    | some SeizzyhType.Flat => query ++ [QueryCall.bypassVectorIndex]
    | _ => query
  let query := match self.seizzyh_type with
    | some SeizzyhType.Approximate =>
      let query := match self.nprobes with
        | some nprobes => query ++ [QueryCall.nprobes nprobes]
        | none => query
      match self.refine_factor with
        | some refine_factor => query ++ [QueryCall.refineFactor refine_factor]
        | none => query
    | _ => query
  let query := match self.post_filter with
    | some true => query ++ [QueryCall.postfilter]
    | _ => query
  match self.column with
  | some column => query ++ [QueryCall.column column]
  | none => query

/-- Spec-side decomposition: the calls contributed by the distance-type step. -/
def dtCalls (p : SeizzyhParams) : List QueryCall :=
  match p.distance_type with
  | some d => [QueryCall.distanceType d]
  | none => []

/-- Spec-side decomposition: the calls contributed by the search-type step
(bypass the index for Flat; nprobes then refine_factor for Approximate). -/
def stCalls (p : SeizzyhParams) : List QueryCall :=
  match p.seizzyh_type with
  | some SeizzyhType.Flat => [QueryCall.bypassVectorIndex]
  | some SeizzyhType.Approximate =>
    (match p.nprobes with
      | some np => [QueryCall.nprobes np]
      | none => []) ++
    (match p.refine_factor with
      | some rf => [QueryCall.refineFactor rf]
      | none => [])
  | none => []

/-- Spec-side decomposition: the calls contributed by the post-filter step. -/
def pfCalls (p : SeizzyhParams) : List QueryCall :=
  match p.post_filter with
  | some true => [QueryCall.postfilter]
  | _ => []

/-- Spec-side decomposition: the calls contributed by the column-binding step. -/
def colCalls (p : SeizzyhParams) : List QueryCall :=
  match p.column with
  | some c => [QueryCall.column c]
  | none => []

/-- `serde_json::Value`: JSON values, with numbers modelled as rationals. -/
inductive Value
  | null
  | bool (b : Bool)
  | num (q : ℚ)
  | str (s : String)
  | arr (elems : List Value)
  | obj (fields : List (String × Value))

/-- Key lookup in a JSON object's field list (first match). -/
def lookupField : List (String × Value) → String → Option Value
  | [], _ => none
  | (k, v) :: rest, key => if k = key then some v else lookupField rest key

/-- `Value::get(key)`: field lookup on an object, `None` on any other value. -/
def Value.get (v : Value) (key : String) : Option Value :=
  match v with
  | .obj fields => lookupField fields key
  | _ => none

/-- The score-extraction match of `top_n`/`top_n_ids`: a numeric field under
`key` yields its value as f64, anything else defaults to `0.0`. -/
def extract_score (key : String) (v : Value) : ℚ :=
  match v.get key with
  | some (Value.num distance) => distance
  | _ => 0

/-- The id-extraction match of `top_n`: a string field under the id column is
used, otherwise `format!("unknown{i}")` from the row's position `i`. -/
def extract_id_top_n (idField : String) (i : Nat) (v : Value) : String :=
  match v.get idField with
  | some (Value.str id) => id
  | _ => "unknown" ++ toString i

/-- The id-extraction match of `top_n_ids`: a string field under the id
column is used, otherwise the empty string. -/
def extract_id_top_n_ids (idField : String) (v : Value) : String :=
  match v.get idField with
  | some (Value.str id) => id
  | _ => ""

/-- `izzy::vector_store::VectorStoreError` (external), with error payloads
abstracted as strings.  `JsonError` wraps a `serde_json` error. -/
inductive VectorStoreError
  | DatastoreError (msg : String)
  | JsonError (e : String)
  | EmbeddingError (e : String)
deriving DecidableEq, Repr

/-- Per-row decoding of `top_n` at position `i`: extract score and id (both
total, with defaults), then `serde_json::from_value` the whole row into the
caller's type `T`; a deserialization failure fails the row with `JsonError`. -/
def decode_row {T : Type} (idField : String) (de : Value → Except String T)
    (i : Nat) (v : Value) : Except VectorStoreError (ℚ × String × T) :=
  match de v with
  | .ok payload => .ok (extract_score "_distance" v, extract_id_top_n idField i v, payload)
  | .error e => .error (VectorStoreError.JsonError e)

/-- `top_n`'s `enumerate().map(...).collect::<Result<Vec, e>>()`: decode the
rows starting at position `i`, short-circuiting on the first error. -/
def top_n_decode_rows {T : Type} (idField : String) (de : Value → Except String T) :
    Nat → List Value → Except VectorStoreError (List (ℚ × String × T))
  | _, [] => .ok []
  | i, v :: rest =>
    match decode_row idField de i v with
    | .error e => .error e
    | .ok r =>
      match top_n_decode_rows idField de (i + 1) rest with
      | .error e => .error e
      | .ok rs => .ok (r :: rs)

/-- The decoding stage of `top_n`: rows are enumerated from position 0. -/
def top_n_decode {T : Type} (idField : String) (de : Value → Except String T)
    (rows : List Value) : Except VectorStoreError (List (ℚ × String × T)) :=
  top_n_decode_rows idField de 0 rows

/-- Per-row decoding of `top_n_ids`: score from the `"distance"` field, id
from the id column with `""` default; the closure always returns `Ok`. -/
def decode_id_row (idField : String) (v : Value) : ℚ × String :=
  (extract_score "distance" v, extract_id_top_n_ids idField v)

/-- The decoding stage of `top_n_ids`: per-row decoding never fails, so the
`collect` over `Result` always succeeds with one pair per row. -/
def top_n_ids_decode (idField : String) (rows : List Value) : List (ℚ × String) :=
  rows.map (decode_id_row idField)

/-- A column of the table schema, with its name and whether it is an
embedding/vector column. -/
structure Column where
  name : String
  isEmbedding : Bool
deriving DecidableEq, Repr

/-- Modelled from the spec: the `utils` module (`FilterTableColumns`) is not
under src/.  Per the spec, the schema-introspection capability returns the
set of column names considered embedding/vector columns, used to exclude
them; `filter_embeddings` thus returns the schema's column names with the
embedding/vector columns excluded. -/
def filter_embeddings (schema : List Column) : List String :=
  (schema.filter (fun c => !c.isEmbedding)).map Column.name

/-- `lancedb::Error` (external), abstracted. -/
inductive LancedbError
  | backend (msg : String)
deriving DecidableEq, Repr

/-- `LanceDbVectorIndex` from lib.rs, polymorphic in the embedding model `M`
and the opaque table handle `Table`. -/
structure LanceDbVectorIndex (M : Type) (Table : Type) where
  model : M
  table : Table
  id_field : String
  seizzyh_params : SeizzyhParams

/-- `LanceDbVectorIndex::new`: wraps the four arguments in the struct and
returns `Ok`; the `Result<Self, lancedb::Error>` type admits an error but
none is ever produced. -/
def LanceDbVectorIndex.new {M Table : Type} (table : Table) (model : M)
    (id_field : String) (seizzyh_params : SeizzyhParams) :
    Except LancedbError (LanceDbVectorIndex M Table) :=
  .ok { table := table, model := model, id_field := id_field,
        seizzyh_params := seizzyh_params }

/-- The query trace built by `top_n` before execution: `vector_seizzyh` on
the prompt embedding, `limit(n)`, `select(Columns(filter_embeddings))`, then
`build_query` applies the search params. -/
def top_n_query_calls {M Table : Type} (self : LanceDbVectorIndex M Table)
    (schema : List Column) (embedding : List ℚ) (n : Nat) : List QueryCall :=
  build_query self.seizzyh_params
    [QueryCall.vectorSeizzyh embedding, QueryCall.limit n,
     QueryCall.selectColumns (filter_embeddings schema)]

/-- The query trace built by `top_n_ids` before execution: `select` of just
the id column, `nearest_to` the prompt embedding, `limit(n)`, then
`build_query` applies the search params. -/
def top_n_ids_query_calls {M Table : Type} (self : LanceDbVectorIndex M Table)
    (embedding : List ℚ) (n : Nat) : List QueryCall :=
  build_query self.seizzyh_params
    [QueryCall.selectColumns [self.id_field], QueryCall.nearestTo embedding,
     QueryCall.limit n]

/-! ### Helper lemmas about `build_query` traces -/

theorem build_query_eq (p : SeizzyhParams) (q : List QueryCall) :
    build_query p q = q ++ dtCalls p ++ stCalls p ++ pfCalls p ++ colCalls p := by
  obtain ⟨dt, st, np, rf, pf, col⟩ := p
  rcases dt with _ | dt <;> rcases st with _ | (_ | _) <;>
    rcases np with _ | np <;> rcases rf with _ | rf <;>
    rcases pf with _ | (_ | _) <;> rcases col with _ | col <;>
    simp [build_query, dtCalls, stCalls, pfCalls, colCalls]

theorem distanceType_mem_build (p : SeizzyhParams) (d : DistanceType) :
    QueryCall.distanceType d ∈ build_query p [] ↔ p.distance_type = some d := by
  obtain ⟨dt, st, np, rf, pf, col⟩ := p
  rcases dt with _ | dt <;> rcases st with _ | (_ | _) <;>
    rcases np with _ | np <;> rcases rf with _ | rf <;>
    rcases pf with _ | (_ | _) <;> rcases col with _ | col <;>
    simp [build_query, eq_comm]

theorem bypass_mem_build (p : SeizzyhParams) :
    QueryCall.bypassVectorIndex ∈ build_query p [] ↔
      p.seizzyh_type = some SeizzyhType.Flat := by
  obtain ⟨dt, st, np, rf, pf, col⟩ := p
  rcases dt with _ | dt <;> rcases st with _ | (_ | _) <;>
    rcases np with _ | np <;> rcases rf with _ | rf <;>
    rcases pf with _ | (_ | _) <;> rcases col with _ | col <;>
    simp [build_query]

theorem nprobes_mem_build (p : SeizzyhParams) (k : Nat) :
    QueryCall.nprobes k ∈ build_query p [] ↔
      p.seizzyh_type = some SeizzyhType.Approximate ∧ p.nprobes = some k := by
  obtain ⟨dt, st, np, rf, pf, col⟩ := p
  rcases dt with _ | dt <;> rcases st with _ | (_ | _) <;>
    rcases np with _ | np <;> rcases rf with _ | rf <;>
    rcases pf with _ | (_ | _) <;> rcases col with _ | col <;>
    simp [build_query, eq_comm]

theorem refineFactor_mem_build (p : SeizzyhParams) (k : Nat) :
    QueryCall.refineFactor k ∈ build_query p [] ↔
      p.seizzyh_type = some SeizzyhType.Approximate ∧ p.refine_factor = some k := by
  obtain ⟨dt, st, np, rf, pf, col⟩ := p
  rcases dt with _ | dt <;> rcases st with _ | (_ | _) <;>
    rcases np with _ | np <;> rcases rf with _ | rf <;>
    rcases pf with _ | (_ | _) <;> rcases col with _ | col <;>
    simp [build_query, eq_comm]

theorem postfilter_mem_build (p : SeizzyhParams) :
    QueryCall.postfilter ∈ build_query p [] ↔ p.post_filter = some true := by
  obtain ⟨dt, st, np, rf, pf, col⟩ := p
  rcases dt with _ | dt <;> rcases st with _ | (_ | _) <;>
    rcases np with _ | np <;> rcases rf with _ | rf <;>
    rcases pf with _ | (_ | _) <;> rcases col with _ | col <;>
    simp [build_query]

theorem column_mem_build (p : SeizzyhParams) (c : String) :
    QueryCall.column c ∈ build_query p [] ↔ p.column = some c := by
  obtain ⟨dt, st, np, rf, pf, col⟩ := p
  rcases dt with _ | dt <;> rcases st with _ | (_ | _) <;>
    rcases np with _ | np <;> rcases rf with _ | rf <;>
    rcases pf with _ | (_ | _) <;> rcases col with _ | col <;>
    simp [build_query, eq_comm]

theorem stCalls_approx {p : SeizzyhParams} {np rf : Nat}
    (hst : p.seizzyh_type = some SeizzyhType.Approximate)
    (hnp : p.nprobes = some np) (hrf : p.refine_factor = some rf) :
    stCalls p = [QueryCall.nprobes np, QueryCall.refineFactor rf] := by
  simp [stCalls, hst, hnp, hrf]

theorem mem_dtCalls {p : SeizzyhParams} {c : QueryCall} (h : c ∈ dtCalls p) :
    ∃ d, c = QueryCall.distanceType d := by
  simp only [dtCalls] at h
  split at h
  · exact ⟨_, List.mem_singleton.mp h⟩
  · simp at h

theorem mem_stCalls {p : SeizzyhParams} {c : QueryCall} (h : c ∈ stCalls p) :
    c = QueryCall.bypassVectorIndex ∨ (∃ k, c = QueryCall.nprobes k) ∨
      ∃ k, c = QueryCall.refineFactor k := by
  simp only [stCalls] at h
  split at h
  · exact Or.inl (List.mem_singleton.mp h)
  · rcases List.mem_append.mp h with h | h
    · split at h
      · exact Or.inr (Or.inl ⟨_, List.mem_singleton.mp h⟩)
      · simp at h
    · split at h
      · exact Or.inr (Or.inr ⟨_, List.mem_singleton.mp h⟩)
      · simp at h
  · simp at h

theorem mem_pfCalls {p : SeizzyhParams} {c : QueryCall} (h : c ∈ pfCalls p) :
    c = QueryCall.postfilter := by
  simp only [pfCalls] at h
  split at h
  · exact List.mem_singleton.mp h
  · simp at h

theorem mem_colCalls {p : SeizzyhParams} {c : QueryCall} (h : c ∈ colCalls p) :
    ∃ s, c = QueryCall.column s := by
  simp only [colCalls] at h
  split at h
  · exact ⟨_, List.mem_singleton.mp h⟩
  · simp at h

/-! ### C1 -/

/-- C1: `build_query` applies the configured settings in the fixed order
distance_type, search-type step, post_filter, column binding, appending them
to the incoming query; and every unset field issues no builder call. -/
theorem build_query_fixed_order_and_unset_skipped (p : SeizzyhParams)
    (q : List QueryCall) :
    build_query p q = q ++ dtCalls p ++ stCalls p ++ pfCalls p ++ colCalls p
    ∧ (p.distance_type = none → ∀ d, QueryCall.distanceType d ∉ build_query p [])
    ∧ (p.seizzyh_type = none → QueryCall.bypassVectorIndex ∉ build_query p []
        ∧ ∀ k, QueryCall.nprobes k ∉ build_query p []
          ∧ QueryCall.refineFactor k ∉ build_query p [])
    ∧ (p.nprobes = none → ∀ k, QueryCall.nprobes k ∉ build_query p [])
    ∧ (p.refine_factor = none → ∀ k, QueryCall.refineFactor k ∉ build_query p [])
    ∧ (p.post_filter = none → QueryCall.postfilter ∉ build_query p [])
    ∧ (p.column = none → ∀ c, QueryCall.column c ∉ build_query p []) := by
  refine ⟨build_query_eq p q, ?_, ?_, ?_, ?_, ?_, ?_⟩
  · intro h d hmem
    rw [distanceType_mem_build] at hmem
    rw [h] at hmem
    exact Option.noConfusion hmem
  · intro h
    refine ⟨?_, fun k => ⟨?_, ?_⟩⟩
    · intro hmem
      rw [bypass_mem_build, h] at hmem
      exact Option.noConfusion hmem
    · intro hmem
      rw [nprobes_mem_build, h] at hmem
      exact Option.noConfusion hmem.1
    · intro hmem
      rw [refineFactor_mem_build, h] at hmem
      exact Option.noConfusion hmem.1
  · intro h k hmem
    rw [nprobes_mem_build, h] at hmem
    exact Option.noConfusion hmem.2
  · intro h k hmem
    rw [refineFactor_mem_build, h] at hmem
    exact Option.noConfusion hmem.2
  · intro h hmem
    rw [postfilter_mem_build, h] at hmem
    exact Option.noConfusion hmem
  · intro h c hmem
    rw [column_mem_build, h] at hmem
    exact Option.noConfusion hmem

/-- C1 witness: at the all-unset default params, the decomposition holds and
no builder call at all is issued. -/
theorem build_query_fixed_order_and_unset_skipped_witness :
    build_query SeizzyhParams.default []
        = [] ++ dtCalls SeizzyhParams.default ++ stCalls SeizzyhParams.default
            ++ pfCalls SeizzyhParams.default ++ colCalls SeizzyhParams.default
    ∧ (∀ d, QueryCall.distanceType d ∉ build_query SeizzyhParams.default [])
    ∧ (QueryCall.bypassVectorIndex ∉ build_query SeizzyhParams.default []
        ∧ ∀ k, QueryCall.nprobes k ∉ build_query SeizzyhParams.default []
          ∧ QueryCall.refineFactor k ∉ build_query SeizzyhParams.default [])
    ∧ (∀ k, QueryCall.nprobes k ∉ build_query SeizzyhParams.default [])
    ∧ (∀ k, QueryCall.refineFactor k ∉ build_query SeizzyhParams.default [])
    ∧ (QueryCall.postfilter ∉ build_query SeizzyhParams.default [])
    ∧ (∀ c, QueryCall.column c ∉ build_query SeizzyhParams.default []) := by
  have h := build_query_fixed_order_and_unset_skipped SeizzyhParams.default []
  exact ⟨h.1, h.2.1 rfl, h.2.2.1 rfl, h.2.2.2.1 rfl, h.2.2.2.2.1 rfl,
    h.2.2.2.2.2.1 rfl, h.2.2.2.2.2.2 rfl⟩

/-! ### C2 -/

/-- C2: with `seizzyh_type = Flat`, `build_query` never applies `nprobes` or
`refine_factor` even when set; with `seizzyh_type = Approximate`, it applies
`nprobes` when set and `refine_factor` when set, `nprobes` before
`refine_factor`. -/
theorem build_query_seizzyh_type_gating (p : SeizzyhParams) :
    (p.seizzyh_type = some SeizzyhType.Flat →
      ∀ k, QueryCall.nprobes k ∉ build_query p []
        ∧ QueryCall.refineFactor k ∉ build_query p [])
    ∧ (p.seizzyh_type = some SeizzyhType.Approximate →
      (∀ np, p.nprobes = some np → QueryCall.nprobes np ∈ build_query p [])
      ∧ (∀ rf, p.refine_factor = some rf →
          QueryCall.refineFactor rf ∈ build_query p [])
      ∧ (∀ np rf, p.nprobes = some np → p.refine_factor = some rf →
          ∃ l₁ l₂, build_query p []
            = l₁ ++ QueryCall.nprobes np :: QueryCall.refineFactor rf :: l₂)) := by
  constructor
  · intro hst k
    constructor
    · intro hmem
      rw [nprobes_mem_build] at hmem
      rw [hst] at hmem
      exact SeizzyhType.noConfusion (Option.some.inj hmem.1)
    · intro hmem
      rw [refineFactor_mem_build] at hmem
      rw [hst] at hmem
      exact SeizzyhType.noConfusion (Option.some.inj hmem.1)
  · intro hst
    refine ⟨?_, ?_, ?_⟩
    · intro np hnp
      rw [nprobes_mem_build]
      exact ⟨hst, hnp⟩
    · intro rf hrf
      rw [refineFactor_mem_build]
      exact ⟨hst, hrf⟩
    · intro np rf hnp hrf
      refine ⟨dtCalls p, pfCalls p ++ colCalls p, ?_⟩
      rw [build_query_eq, stCalls_approx hst hnp hrf]
      simp

/-- C2 witness: concrete params with both knobs set, under Flat and under
Approximate. -/
theorem build_query_seizzyh_type_gating_witness :
    (QueryCall.nprobes 5 ∉ build_query
        (((SeizzyhParams.default.set_seizzyh_type SeizzyhType.Flat).set_nprobes 5).set_refine_factor 2) [])
    ∧ ∃ l₁ l₂, build_query
        (((SeizzyhParams.default.set_seizzyh_type SeizzyhType.Approximate).set_nprobes 5).set_refine_factor 2) []
        = l₁ ++ QueryCall.nprobes 5 :: QueryCall.refineFactor 2 :: l₂ := by
  constructor
  · exact ((build_query_seizzyh_type_gating _).1 rfl 5).1
  · exact ((build_query_seizzyh_type_gating _).2 rfl).2.2 5 2 rfl rfl

/-! ### Helper lemmas about row decoding -/

theorem extract_score_default {key : String} {v : Value}
    (h : ∀ q, v.get key ≠ some (Value.num q)) : extract_score key v = 0 := by
  unfold extract_score
  split
  · next q heq => exact absurd heq (h q)
  · rfl

theorem extract_score_num {key : String} {v : Value} {q : ℚ}
    (h : v.get key = some (Value.num q)) : extract_score key v = q := by
  unfold extract_score
  rw [h]

theorem extract_id_top_n_default {idField : String} {v : Value} (i : Nat)
    (h : ∀ s, v.get idField ≠ some (Value.str s)) :
    extract_id_top_n idField i v = "unknown" ++ toString i := by
  unfold extract_id_top_n
  split
  · next s heq => exact absurd heq (h s)
  · rfl

theorem extract_id_top_n_ids_default {idField : String} {v : Value}
    (h : ∀ s, v.get idField ≠ some (Value.str s)) :
    extract_id_top_n_ids idField v = "" := by
  unfold extract_id_top_n_ids
  split
  · next s heq => exact absurd heq (h s)
  · rfl

theorem top_n_decode_rows_error {T : Type} (idField : String)
    (de : Value → Except String T) (rows : List Value) (k : Nat)
    (h : ∃ v ∈ rows, ∃ e, de v = Except.error e) :
    ∃ e, top_n_decode_rows idField de k rows
      = Except.error (VectorStoreError.JsonError e) := by
  induction rows generalizing k with
  | nil => simp at h
  | cons v rest ih =>
    cases hde : de v with
    | error e0 =>
      exact ⟨e0, by simp [top_n_decode_rows, decode_row, hde]⟩
    | ok t =>
      have hrest : ∃ w ∈ rest, ∃ e, de w = Except.error e := by
        obtain ⟨w, hw, e, he⟩ := h
        rcases List.mem_cons.mp hw with rfl | hw2
        · rw [hde] at he
          exact absurd he (by simp)
        · exact ⟨w, hw2, e, he⟩
      obtain ⟨e1, h1⟩ := ih (k + 1) hrest
      exact ⟨e1, by simp [top_n_decode_rows, decode_row, hde, h1]⟩

theorem top_n_decode_rows_ok {T : Type} (idField : String)
    (de : Value → Except String T) (rows : List Value) (k : Nat)
    (h : ∀ v ∈ rows, ∃ t, de v = Except.ok t) :
    ∃ out, top_n_decode_rows idField de k rows = Except.ok out
      ∧ out.length = rows.length := by
  induction rows generalizing k with
  | nil => exact ⟨[], rfl, rfl⟩
  | cons v rest ih =>
    obtain ⟨t, ht⟩ := h v (List.mem_cons_self v rest)
    obtain ⟨out, hout, hlen⟩ := ih (k + 1) (fun w hw => h w (List.mem_cons_of_mem v hw))
    refine ⟨(extract_score "_distance" v, extract_id_top_n idField k v, t) :: out, ?_, ?_⟩
    · simp [top_n_decode_rows, decode_row, ht, hout]
    · simp [hlen]

/-! ### C3 -/

/-- C3: `top_n` row decoding fails as a whole (with a `JsonError`) as soon as
any row's payload fails to deserialize, and when every row deserializes it
returns a complete list with one record per row. -/
theorem top_n_decode_fail_fast_or_complete {T : Type} (idField : String)
    (de : Value → Except String T) (rows : List Value) :
    ((∃ v ∈ rows, ∃ e, de v = Except.error e) →
      ∃ e, top_n_decode idField de rows
        = Except.error (VectorStoreError.JsonError e))
    ∧ ((∀ v ∈ rows, ∃ t, de v = Except.ok t) →
      ∃ out, top_n_decode idField de rows = Except.ok out
        ∧ out.length = rows.length) :=
  ⟨fun h => top_n_decode_rows_error idField de rows 0 h,
   fun h => top_n_decode_rows_ok idField de rows 0 h⟩

/-- A deserializer that always succeeds (payload type `Nat`). -/
def deNatEx : Value → Except String Nat := fun _ => Except.ok 0

/-- A deserializer that always fails, as on a payload type mismatch. -/
def deFailEx : Value → Except String Nat := fun _ => Except.error "invalid type"

/-- Concrete row `{"id": "rec-1"}`. -/
def rowEx : Value := Value.obj [("id", Value.str "rec-1")]

/-- C3 witness: a failing payload aborts the batch; a succeeding payload
yields one record for the one row. -/
theorem top_n_decode_fail_fast_or_complete_witness :
    (∃ e, top_n_decode "id" deFailEx [rowEx]
      = Except.error (VectorStoreError.JsonError e))
    ∧ ∃ out, top_n_decode "id" deNatEx [rowEx] = Except.ok out
        ∧ out.length = [rowEx].length := by
  constructor
  · exact (top_n_decode_fail_fast_or_complete "id" deFailEx [rowEx]).1
      ⟨rowEx, by simp, "invalid type", rfl⟩
  · exact (top_n_decode_fail_fast_or_complete "id" deNatEx [rowEx]).2
      (fun v _ => ⟨0, rfl⟩)

/-! ### C4 -/

/-- C4: for a row whose id field is missing or not a string, `top_n` decodes
the id as `"unknown"` followed by the row's zero-based position, while
`top_n_ids` decodes the id as the empty string. -/
theorem missing_id_defaults_asymmetric (idField : String) (v : Value) (i : Nat)
    (hbad : ∀ s, v.get idField ≠ some (Value.str s)) :
    (∀ (T : Type) (de : Value → Except String T) (t : T), de v = Except.ok t →
      decode_row idField de i v
        = Except.ok (extract_score "_distance" v, "unknown" ++ toString i, t))
    ∧ decode_id_row idField v = (extract_score "distance" v, "") := by
  constructor
  · intro T de t hde
    simp [decode_row, hde, extract_id_top_n_default i hbad]
  · simp [decode_id_row, extract_id_top_n_ids_default hbad]

/-- Concrete row `{"_distance": 0.1}` with no id field. -/
def rowNoId : Value := Value.obj [("_distance", Value.num (1 / 10))]

/-- C4 witness: the row `{"_distance": 0.1}` at position 3 decodes to id
`"unknown3"` via `top_n` and to `""` via `top_n_ids`. -/
theorem missing_id_defaults_asymmetric_witness :
    decode_row "id" deNatEx 3 rowNoId = Except.ok (1 / 10, "unknown3", 0)
    ∧ decode_id_row "id" rowNoId = (0, "") := by
  have h := missing_id_defaults_asymmetric "id" rowNoId 3
    (by intro s hs; simp [rowNoId, Value.get, lookupField] at hs)
  constructor
  · rw [h.1 Nat deNatEx 0 rfl]
    have hsc : extract_score "_distance" rowNoId = 1 / 10 :=
      extract_score_num (by simp [rowNoId, Value.get, lookupField])
    rw [hsc]
    have hstr : ("unknown" ++ toString 3 : String) = "unknown3" := by decide
    rw [hstr]
  · rw [h.2]
    have hsc : extract_score "distance" rowNoId = 0 :=
      extract_score_default (by intro q hq; simp [rowNoId, Value.get, lookupField] at hq)
    rw [hsc]

/-! ### C5 -/

/-- C5: score extraction defaults to 0 when the score field is missing or
non-numeric, returns the numeric value when present, and never fails the
operation: with a succeeding payload deserializer, `decode_row` succeeds, and
`decode_id_row` is total by construction. -/
theorem score_extraction_defaults (v : Value) :
    ((∀ q, v.get "_distance" ≠ some (Value.num q)) →
      extract_score "_distance" v = 0)
    ∧ ((∀ q, v.get "distance" ≠ some (Value.num q)) →
      extract_score "distance" v = 0)
    ∧ (∀ key q, v.get key = some (Value.num q) → extract_score key v = q)
    ∧ (∀ (T : Type) (idField : String) (de : Value → Except String T) (t : T)
        (i : Nat), de v = Except.ok t →
          ∃ r, decode_row idField de i v = Except.ok r)
    ∧ ∀ idField, decode_id_row idField v
        = (extract_score "distance" v, extract_id_top_n_ids idField v) := by
  refine ⟨fun h => extract_score_default h, fun h => extract_score_default h,
    fun key q h => extract_score_num h, ?_, fun idField => rfl⟩
  intro T idField de t i hde
  exact ⟨(extract_score "_distance" v, extract_id_top_n idField i v, t),
    by simp [decode_row, hde]⟩

/-- Concrete row `{"id": "rec-2"}` with no score field. -/
def rowNoScore : Value := Value.obj [("id", Value.str "rec-2")]

/-- C5 witness: the row `{"id": "rec-2"}` decodes with score 0 and without
error. -/
theorem score_extraction_defaults_witness :
    extract_score "_distance" rowNoScore = 0
    ∧ ∃ r, decode_row "id" deNatEx 0 rowNoScore = Except.ok r := by
  have h := score_extraction_defaults rowNoScore
  exact ⟨h.1 (by intro q hq; simp [rowNoScore, Value.get, lookupField] at hq),
    h.2.2.2.1 Nat "id" deNatEx 0 0 rfl⟩

/-! ### C6 -/

/-- The caller's payload type `{text: string}` of the spec's round-trip
example. -/
structure TextPayload where
  text : String
deriving DecidableEq, Repr

/-- Deserializer for `TextPayload`, modelling `serde_json::from_value` for a
struct with one string field `text` (extra fields ignored, as serde does by
default). -/
def deTextPayload : Value → Except String TextPayload := fun v =>
  match v.get "text" with
  | some (Value.str s) => Except.ok ⟨s⟩
  | _ => Except.error "invalid type"

/-- The spec's round-trip row
`{"_distance": 0.42, "id": "rec-1", "text": "hello"}`. -/
def rowRoundTrip : Value :=
  Value.obj [("_distance", Value.num (42 / 100)), ("id", Value.str "rec-1"),
    ("text", Value.str "hello")]

/-- C6: decoding the round-trip row via `top_n` with payload type
`{text: string}` yields exactly `(0.42, "rec-1", {text: "hello"})`. -/
theorem round_trip_concrete_row :
    top_n_decode "id" deTextPayload [rowRoundTrip]
      = Except.ok [(42 / 100, "rec-1", ⟨"hello"⟩)] := by
  simp [top_n_decode, top_n_decode_rows, decode_row, deTextPayload,
    rowRoundTrip, Value.get, lookupField, extract_score, extract_id_top_n]

/-! ### C7 -/

/-- C7: `top_n` reads the score from the `"_distance"` field while
`top_n_ids` reads it from `"distance"`, so a row carrying its score only
under `"_distance"` gets score 0 from `top_n_ids` but its actual score from
`top_n`. -/
theorem distance_key_mismatch (idField : String) (v : Value) (q : ℚ)
    (h1 : v.get "_distance" = some (Value.num q))
    (h2 : v.get "distance" = none) :
    extract_score "_distance" v = q
    ∧ (decode_id_row idField v).1 = 0
    ∧ ∀ (T : Type) (de : Value → Except String T) (t : T) (i : Nat),
        de v = Except.ok t →
          decode_row idField de i v
            = Except.ok (q, extract_id_top_n idField i v, t) := by
  refine ⟨extract_score_num h1, ?_, ?_⟩
  · show extract_score "distance" v = 0
    unfold extract_score
    rw [h2]
  · intro T de t i hde
    simp [decode_row, hde, extract_score_num h1]

/-- C7 witness: the row `{"_distance": 0.1}` gets score 0.1 from the `top_n`
decoder and score 0 from the `top_n_ids` decoder. -/
theorem distance_key_mismatch_witness :
    extract_score "_distance" rowNoId = 1 / 10
    ∧ (decode_id_row "id" rowNoId).1 = 0
    ∧ decode_row "id" deNatEx 0 rowNoId
        = Except.ok (1 / 10, extract_id_top_n "id" 0 rowNoId, 0) := by
  have h := distance_key_mismatch "id" rowNoId (1 / 10)
    (by simp [rowNoId, Value.get, lookupField])
    (by simp [rowNoId, Value.get, lookupField])
  exact ⟨h.1, h.2.1, h.2.2 Nat deNatEx 0 0 rfl⟩

/-! ### C8 -/

theorem mem_build_query {p : SeizzyhParams} {q : List QueryCall} {c : QueryCall}
    (h : c ∈ build_query p q) :
    c ∈ q ∨ (∃ d, c = QueryCall.distanceType d) ∨ c = QueryCall.bypassVectorIndex ∨
      (∃ k, c = QueryCall.nprobes k) ∨ (∃ k, c = QueryCall.refineFactor k) ∨
      c = QueryCall.postfilter ∨ ∃ s, c = QueryCall.column s := by
  rw [build_query_eq] at h
  simp only [List.append_assoc, List.mem_append] at h
  rcases h with h | h | h | h | h
  · tauto
  · have := mem_dtCalls h
    tauto
  · have := mem_stCalls h
    tauto
  · have := mem_pfCalls h
    tauto
  · have := mem_colCalls h
    tauto

theorem mem_build_query_of_mem {p : SeizzyhParams} {q : List QueryCall}
    {c : QueryCall} (h : c ∈ q) : c ∈ build_query p q := by
  rw [build_query_eq]
  simp only [List.append_assoc, List.mem_append]
  exact Or.inl h

/-- C8: `top_n` selects the table columns with the embedding/vector columns
excluded and caps the result at `n` via a `limit` call before execution;
`top_n_ids` selects exactly the single id column and likewise caps at `n`. -/
theorem column_selection_and_limit {M Table : Type}
    (idx : LanceDbVectorIndex M Table) (schema : List Column)
    (embedding : List ℚ) (n : Nat) :
    (QueryCall.selectColumns (filter_embeddings schema)
      ∈ top_n_query_calls idx schema embedding n)
    ∧ (∀ cs, QueryCall.selectColumns cs ∈ top_n_query_calls idx schema embedding n
        → cs = filter_embeddings schema)
    ∧ (∀ name, name ∈ filter_embeddings schema
        ↔ ∃ c ∈ schema, c.name = name ∧ c.isEmbedding = false)
    ∧ (QueryCall.limit n ∈ top_n_query_calls idx schema embedding n)
    ∧ (∀ m, QueryCall.limit m ∈ top_n_query_calls idx schema embedding n → m = n)
    ∧ (QueryCall.selectColumns [idx.id_field] ∈ top_n_ids_query_calls idx embedding n)
    ∧ (∀ cs, QueryCall.selectColumns cs ∈ top_n_ids_query_calls idx embedding n
        → cs = [idx.id_field])
    ∧ (QueryCall.limit n ∈ top_n_ids_query_calls idx embedding n)
    ∧ (∀ m, QueryCall.limit m ∈ top_n_ids_query_calls idx embedding n → m = n) := by
  refine ⟨?_, ?_, ?_, ?_, ?_, ?_, ?_, ?_, ?_⟩
  · exact mem_build_query_of_mem (by simp)
  · intro cs h
    simp only [top_n_query_calls] at h
    rcases mem_build_query h with h | h | h | h | h | h | h <;> simp_all
  · intro name
    simp only [filter_embeddings, List.mem_map, List.mem_filter,
      Bool.not_eq_true']
    constructor
    · rintro ⟨c, ⟨hc, he⟩, hn⟩
      exact ⟨c, hc, hn, he⟩
    · rintro ⟨c, hc, hn, he⟩
      exact ⟨c, ⟨hc, he⟩, hn⟩
  · exact mem_build_query_of_mem (by simp)
  · intro m h
    simp only [top_n_query_calls] at h
    rcases mem_build_query h with h | h | h | h | h | h | h <;> simp_all
  · exact mem_build_query_of_mem (by simp)
  · intro cs h
    simp only [top_n_ids_query_calls] at h
    rcases mem_build_query h with h | h | h | h | h | h | h <;> simp_all
  · exact mem_build_query_of_mem (by simp)
  · intro m h
    simp only [top_n_ids_query_calls] at h
    rcases mem_build_query h with h | h | h | h | h | h | h <;> simp_all

/-- Concrete adapter over trivial table/model handles. -/
def idxEx : LanceDbVectorIndex Unit Unit :=
  { model := (), table := (), id_field := "id",
    seizzyh_params := SeizzyhParams.default }

/-- Concrete schema: an id column and an embedding column. -/
def schemaEx : List Column := [⟨"id", false⟩, ⟨"vec", true⟩]

/-- C8 witness: on a concrete schema the non-embedding column is selected,
the limit call is present, and `top_n_ids` selects the id column. -/
theorem column_selection_and_limit_witness :
    "id" ∈ filter_embeddings schemaEx
    ∧ QueryCall.limit 5 ∈ top_n_query_calls idxEx schemaEx [] 5
    ∧ QueryCall.selectColumns ["id"] ∈ top_n_ids_query_calls idxEx [] 5 := by
  have h := column_selection_and_limit idxEx schemaEx [] 5
  exact ⟨(h.2.2.1 "id").mpr ⟨⟨"id", false⟩, by simp [schemaEx], rfl, rfl⟩,
    h.2.2.2.1, h.2.2.2.2.2.1⟩

/-! ### C9 -/

/-- C9: each `SeizzyhParams` setter overrides exactly its own field and
leaves the other five unchanged, and the default value has every field
unset. -/
theorem seizzyh_params_setters_frame (p : SeizzyhParams) (d : DistanceType)
    (st : SeizzyhType) (np rf : Nat) (pf : Bool) (c : String) :
    ((p.set_distance_type d).distance_type = some d
      ∧ (p.set_distance_type d).seizzyh_type = p.seizzyh_type
      ∧ (p.set_distance_type d).nprobes = p.nprobes
      ∧ (p.set_distance_type d).refine_factor = p.refine_factor
      ∧ (p.set_distance_type d).post_filter = p.post_filter
      ∧ (p.set_distance_type d).column = p.column)
    ∧ ((p.set_seizzyh_type st).seizzyh_type = some st
      ∧ (p.set_seizzyh_type st).distance_type = p.distance_type
      ∧ (p.set_seizzyh_type st).nprobes = p.nprobes
      ∧ (p.set_seizzyh_type st).refine_factor = p.refine_factor
      ∧ (p.set_seizzyh_type st).post_filter = p.post_filter
      ∧ (p.set_seizzyh_type st).column = p.column)
    ∧ ((p.set_nprobes np).nprobes = some np
      ∧ (p.set_nprobes np).distance_type = p.distance_type
      ∧ (p.set_nprobes np).seizzyh_type = p.seizzyh_type
      ∧ (p.set_nprobes np).refine_factor = p.refine_factor
      ∧ (p.set_nprobes np).post_filter = p.post_filter
      ∧ (p.set_nprobes np).column = p.column)
    ∧ ((p.set_refine_factor rf).refine_factor = some rf
      ∧ (p.set_refine_factor rf).distance_type = p.distance_type
      ∧ (p.set_refine_factor rf).seizzyh_type = p.seizzyh_type
      ∧ (p.set_refine_factor rf).nprobes = p.nprobes
      ∧ (p.set_refine_factor rf).post_filter = p.post_filter
      ∧ (p.set_refine_factor rf).column = p.column)
    ∧ ((p.set_post_filter pf).post_filter = some pf
      ∧ (p.set_post_filter pf).distance_type = p.distance_type
      ∧ (p.set_post_filter pf).seizzyh_type = p.seizzyh_type
      ∧ (p.set_post_filter pf).nprobes = p.nprobes
      ∧ (p.set_post_filter pf).refine_factor = p.refine_factor
      ∧ (p.set_post_filter pf).column = p.column)
    ∧ ((p.set_column c).column = some c
      ∧ (p.set_column c).distance_type = p.distance_type
      ∧ (p.set_column c).seizzyh_type = p.seizzyh_type
      ∧ (p.set_column c).nprobes = p.nprobes
      ∧ (p.set_column c).refine_factor = p.refine_factor
      ∧ (p.set_column c).post_filter = p.post_filter)
    ∧ (SeizzyhParams.default.distance_type = none
      ∧ SeizzyhParams.default.seizzyh_type = none
      ∧ SeizzyhParams.default.nprobes = none
      ∧ SeizzyhParams.default.refine_factor = none
      ∧ SeizzyhParams.default.post_filter = none
      ∧ SeizzyhParams.default.column = none) :=
  ⟨⟨rfl, rfl, rfl, rfl, rfl, rfl⟩, ⟨rfl, rfl, rfl, rfl, rfl, rfl⟩,
    ⟨rfl, rfl, rfl, rfl, rfl, rfl⟩, ⟨rfl, rfl, rfl, rfl, rfl, rfl⟩,
    ⟨rfl, rfl, rfl, rfl, rfl, rfl⟩, ⟨rfl, rfl, rfl, rfl, rfl, rfl⟩,
    ⟨rfl, rfl, rfl, rfl, rfl, rfl⟩⟩

/-! ### C10 -/

/-- C10: `new` never fails: for every table, model, id field and params it
returns `Ok` with an adapter holding exactly those values, although its
return type admits a backend error. -/
theorem new_never_fails (M Table : Type) (table : Table) (model : M)
    (id_field : String) (p : SeizzyhParams) :
    LanceDbVectorIndex.new table model id_field p
      = Except.ok { model := model, table := table, id_field := id_field,
                    seizzyh_params := p } := rfl

end IzzyLancedb
